import Mathlib

set_option linter.unusedVariables false

/-! Verification of the NEXA port-scanner core (src/nexa.py) against its
specification.

The development shallowly embeds the two core components:

* `probe_port_once` (src/nexa.py lines 55-88): the per-port connection
  prober.  All network interaction is abstracted into a `ConnectBehavior`
  value describing how the network responds to this single probe (connect
  refused / OS error / other error / accepted after some delay, and, once
  connected, whether the optional send fails, when read data becomes
  available, which bytes are available, whether the read or the close
  raises).  Python exceptions are modelled with `Except PyExc`; the prober
  is written with the same try/except structure as the source, so that the
  theorem that it never surfaces an error mirrors the exhaustiveness of the
  source's exception handlers.

* `run_scan` (src/nexa.py lines 90-107): the bounded-concurrency scan
  loop.  Its value-level behaviour is the dictionary of per-port outcomes;
  the dictionary is modelled as an association list with Python-dict
  insertion semantics (`dictInsert`: overwrite in place if the key exists,
  append otherwise).  Workers write their results in completion order,
  which is some permutation of the submitted port list; the theorems
  quantify over that permutation.  The semaphore gate is modelled
  separately as a transition system (`GateStep` / `GateReachable`).

* `print_table` (src/nexa.py lines 150-158): the row-selection logic of
  the report renderer (`print_table_rows`).

Byte strings are `List Nat`; Python's `bytes.decode(errors='replace')`,
`str.strip`, `str.replace` and `str.lower` are embedded as
`pyDecodeReplace`, `pyStrip`, `pyReplaceChar` and `pyLower` over `Char`
lists.
-/

/-- Exceptions that can arise at the modelled suspension points, following
the except-clauses of `probe_port_once`: `asyncio.TimeoutError`,
`ConnectionRefusedError`, other `OSError`, and any other `Exception`. -/
inductive PyExc where
  | timeoutError
  | connectionRefused
  | osError
  | otherExc
deriving DecidableEq, Repr

/-- Behaviour of the remote endpoint once a TCP connection has been
established: whether the optional HTTP-request write raises, after how
much time the banner read would complete, which bytes the service has
sent, whether the read raises a non-timeout exception, and whether
closing the connection raises. -/
structure ConnBehavior where
  sendFails : Bool
  readDelay : ℚ
  avail : List Nat
  readRaises : Bool
  closeFails : Bool
deriving DecidableEq, Repr

/-- Behaviour of one connection attempt to (host, port): the connect
either is refused (`ConnectionRefusedError`), fails with another
`OSError`, fails with some other `Exception`, or is accepted after
`delay` time units, yielding a connected endpoint with behaviour
`conn`. -/
inductive ConnectBehavior where
  | refused
  | osError
  | otherExc
  | accepts (delay : ℚ) (conn : ConnBehavior)
deriving DecidableEq, Repr

/-- Result of one probe: the (status, banner) pair the source returns,
plus the observable side effect of whether the optional protocol request
write was attempted on the connection. -/
structure ProbeResult where
  status : String
  banner : String
  sentRequest : Bool
deriving DecidableEq, Repr

/-- The fixed port set guarding the optional HTTP request, in source
order: `if port in (80, 8080, 8000, 443)` (src/nexa.py line 70). -/
def httpPorts : List Nat := [80, 8080, 8000, 443]

/-- Embedding of `asyncio.wait_for(asyncio.open_connection(host, port),
timeout=timeout)` (src/nexa.py lines 57-58): an accepted connection whose
delay exceeds the timeout raises `asyncio.TimeoutError`; the failure
behaviours raise the corresponding exception. -/
def connectStep (timeout : ℚ) : ConnectBehavior → Except PyExc ConnBehavior
  | .refused => .error .connectionRefused
  | .osError => .error .osError
  | .otherExc => .error .otherExc
  | .accepts delay conn =>
      if timeout < delay then .error .timeoutError else .ok conn

/-- Embedding of Python `str.isspace` restricted to the code points the
banner pipeline can meet (ASCII control whitespace, NEL, NBSP and the
Unicode space separators): the characters `str.strip()` removes. -/
def pySpace (c : Char) : Bool :=
  let n := c.toNat
  (9 ≤ n && n ≤ 13) || (28 ≤ n && n ≤ 32) || n == 0x85 || n == 0xA0 ||
  n == 0x1680 || (0x2000 ≤ n && n ≤ 0x200A) || n == 0x2028 || n == 0x2029 ||
  n == 0x202F || n == 0x205F || n == 0x3000

/-- Embedding of Python `str.strip()`: drop whitespace from both ends. -/
def pyStrip (s : List Char) : List Char :=
  ((s.dropWhile pySpace).reverse.dropWhile pySpace).reverse

/-- Embedding of Python `str.replace(old, new)` for single-character
arguments: replace every occurrence of `old` by `new`. -/
def pyReplaceChar (s : List Char) (old new : Char) : List Char :=
  s.map fun c => if c == old then new else c

/-- Embedding of Python `str.lower()` for the ASCII range. -/
def pyLower (s : String) : String :=
  String.mk (s.data.map Char.toLower)

/-- State of the incremental UTF-8 decoder while inside a multi-byte
sequence: how many continuation bytes are still expected, the code point
accumulated so far, and the valid range for the next continuation byte
(the first continuation of E0/ED/F0/F4 leads has a restricted range that
rules out overlong encodings and surrogates, as CPython does). -/
structure Utf8Pending where
  need : Nat
  acc : Nat
  lo : Nat
  hi : Nat
deriving DecidableEq, Repr

/-- Outcome of classifying one byte in lead position: either a finished
character (an ASCII byte, or U+FFFD for a byte that can never start a
sequence) or the opening of a multi-byte sequence. -/
inductive Utf8Start where
  | emit (c : Char)
  | start (p : Utf8Pending)
deriving DecidableEq, Repr

/-- Classify a byte in lead position. -/
def utf8Lead (b : Nat) : Utf8Start :=
  if b < 0x80 then .emit (Char.ofNat b)
  else if 0xC2 ≤ b && b ≤ 0xDF then .start ⟨1, b - 0xC0, 0x80, 0xBF⟩
  else if b == 0xE0 then .start ⟨2, 0, 0xA0, 0xBF⟩
  else if b == 0xED then .start ⟨2, 0xD, 0x80, 0x9F⟩
  else if 0xE0 ≤ b && b ≤ 0xEF then .start ⟨2, b - 0xE0, 0x80, 0xBF⟩
  else if b == 0xF0 then .start ⟨3, 0, 0x90, 0xBF⟩
  else if b == 0xF4 then .start ⟨3, 4, 0x80, 0x8F⟩
  else if 0xF0 ≤ b && b ≤ 0xF4 then .start ⟨3, b - 0xF0, 0x80, 0xBF⟩
  else .emit (Char.ofNat 0xFFFD)

/-- Incremental UTF-8 decoding with replacement, one byte per step.  An
invalid or truncated sequence contributes one U+FFFD for its maximal
valid prefix (CPython's `errors='replace'` behaviour) and the offending
byte is reconsidered in lead position. -/
def pyDecodeReplaceAux : Option Utf8Pending → List Nat → List Char
  | none, [] => []
  | some _, [] => [Char.ofNat 0xFFFD]
  | none, b :: rest =>
    (match utf8Lead b with
     | .emit c => c :: pyDecodeReplaceAux none rest
     | .start p => pyDecodeReplaceAux (some p) rest)
  | some p, b :: rest =>
    if p.lo ≤ b && b ≤ p.hi then
      (if p.need ≤ 1 then Char.ofNat (p.acc * 0x40 + (b - 0x80)) :: pyDecodeReplaceAux none rest
       else pyDecodeReplaceAux (some ⟨p.need - 1, p.acc * 0x40 + (b - 0x80), 0x80, 0xBF⟩) rest)
    else
      Char.ofNat 0xFFFD ::
        (match utf8Lead b with
         | .emit c => c :: pyDecodeReplaceAux none rest
         | .start q => pyDecodeReplaceAux (some q) rest)

/-- Embedding of `bytes.decode(errors='replace')`: UTF-8 decoding where
invalid input is replaced by U+FFFD instead of raising. -/
def pyDecodeReplace (data : List Nat) : List Char :=
  pyDecodeReplaceAux none data

/-- Equality of `Except` results is decidable when both components are. -/
instance {ε α : Type} [DecidableEq ε] [DecidableEq α] : DecidableEq (Except ε α) := fun x y =>
  match x, y with
  | .ok a, .ok b =>
      if h : a = b then isTrue (by rw [h]) else isFalse (by simp [h])
  | .error a, .error b =>
      if h : a = b then isTrue (by rw [h]) else isFalse (by simp [h])
  | .ok _, .error _ => isFalse (by simp)
  | .error _, .ok _ => isFalse (by simp)

/-- The banner-phase of `probe_port_once` after a successful connect
(src/nexa.py lines 68-88), with the source's try/except/finally structure
flattened into its observable cases:

* if the port is in `httpPorts` the request write is attempted; a raising
  write is caught by the outer `except Exception: pass`, skipping the
  read (banner stays `''`);
* otherwise `reader.read(4096)` runs under `asyncio.wait_for(-, 0.9)`:
  a timeout yields `data = b''` (so the `if data:` guard fails), any
  other read exception again falls to the outer `except ... pass`;
* non-empty data is decoded permissively, stripped, then each CR and LF
  is replaced by a space (source line 79, in that order);
* the `finally` close runs on every path and its failures are swallowed,
  so `closeFails` does not affect the result;
* the status is unconditionally `'OPEN'`. -/
def connectedPhase (port : Nat) (conn : ConnBehavior) : ProbeResult :=
  let banner : String :=
    if port ∈ httpPorts ∧ conn.sendFails then ""
    else if mkRat 9 10 < conn.readDelay then ""
    else if conn.readRaises then ""
    else
      let data := conn.avail.take 4096
      if data.isEmpty then ""
      else
        String.mk
          (pyReplaceChar (pyReplaceChar (pyStrip (pyDecodeReplace data)) '\r' ' ') '\n' ' ')
  ⟨"OPEN", banner, decide (port ∈ httpPorts)⟩

/-- Embedding of `probe_port_once(host, port, timeout)` (src/nexa.py
lines 55-88).  The connect phase maps each exception class to a
(status, banner) return exactly as the source's except-clauses do;
a successful connect enters the banner phase and always returns
status `'OPEN'`. -/
def probe_port_once (host : String) (port : Nat) (timeout : ℚ)
    (net : ConnectBehavior) : Except PyExc ProbeResult :=
  match connectStep timeout net with
  | .error .timeoutError => .ok ⟨"FILTERED", "", false⟩
  | .error .connectionRefused => .ok ⟨"CLOSED", "", false⟩
  | .error .osError => .ok ⟨"FILTERED", "", false⟩
  | .error .otherExc => .ok ⟨"FILTERED", "", false⟩
  | .ok conn => .ok (connectedPhase port conn)

/-- Total extraction of the probe result, justified by
`probe_port_once_ok` below: the prober never surfaces an error. -/
def probeResultD (host : String) (port : Nat) (timeout : ℚ)
    (net : ConnectBehavior) : ProbeResult :=
  match probe_port_once host port timeout net with
  | .ok r => r
  | .error _ => ⟨"", "", false⟩

/-- Python-dict insertion semantics for `results[port] = (status, banner)`
on an association list: overwrite in place when the key is present,
append otherwise. -/
def dictInsert {α : Type} (d : List (Nat × α)) (k : Nat) (v : α) : List (Nat × α) :=
  if d.any (fun e => e.1 == k) then
    d.map (fun e => if e.1 == k then (k, v) else e)
  else d ++ [(k, v)]

/-- The keys of the modelled dictionary, in insertion order. -/
def dictKeys {α : Type} (d : List (Nat × α)) : List Nat :=
  d.map Prod.fst

/-- Embedding of `run_scan(host, ports, concurrency, timeout)`
(src/nexa.py lines 90-107), value level.  One worker runs per port; each
worker probes its port and stores `(status, banner)` in the shared dict
under its own port number.  The workers finish in some order that is a
permutation of the submitted list (the theorems quantify over it), and
the dict receives the writes in that completion order, here the order of
`ports`.  `net` gives the network behaviour seen by the probe of each
port; an exception escaping a worker would propagate through
`asyncio.gather`, which the `Except` layer makes visible.  The semaphore
only schedules the workers and cannot change the collected values; it is
modelled separately as `GateStep`/`GateReachable`. -/
def run_scan (host : String) (ports : List Nat) (concurrency : Nat) (timeout : ℚ)
    (net : Nat → ConnectBehavior) : Except PyExc (List (Nat × (String × String))) :=
  ports.foldlM
    (fun results p =>
      (probe_port_once host p timeout (net p)).map
        (fun r => dictInsert results p (r.status, r.banner)))
    []

/-- Pure form of the scan fold, used to reason about `run_scan` once the
prober is known never to fail. -/
def scanFold (host : String) (timeout : ℚ) (net : Nat → ConnectBehavior)
    (ports : List Nat) (init : List (Nat × (String × String))) : List (Nat × (String × String)) :=
  ports.foldl
    (fun results p =>
      dictInsert results p ((probeResultD host p timeout (net p)).status,
        (probeResultD host p timeout (net p)).banner))
    init

/-- A merged per-port report entry as assembled in `main`
(src/nexa.py lines 227-230): port, probe status, nmap service
description, truncated banner. -/
structure MergedItem where
  port : Nat
  status : String
  service : String
  version : String
deriving DecidableEq, Repr

/-- The row filter of `print_table` (src/nexa.py lines 153-157):
`if s == 'OPEN' or (s == 'FILTERED' and svc and svc.lower() not in ('', '(unknown)'))`. -/
def includeItem (item : MergedItem) : Bool :=
  item.status == "OPEN" ||
    (item.status == "FILTERED" && item.service != "" &&
      !((pyLower item.service == "") || (pyLower item.service == "(unknown)")))

/-- The rows the report renderer displays, in input order
(src/nexa.py lines 152-157). -/
def print_table_rows (merged : List MergedItem) : List (Nat × String × String × String) :=
  (merged.filter includeItem).map (fun i => (i.port, i.status, i.service, i.version))

/-- State of the concurrency gate of `run_scan`: the number of free
semaphore slots (`avail`), and how many worker tasks are waiting to
acquire the gate, are running their probe while holding it, and are
done (having released it). -/
structure GateState where
  waiting : Nat
  running : Nat
  done : Nat
  avail : Nat
deriving DecidableEq, Repr

/-- Initial gate state of `run_scan`: `Semaphore(concurrency)` has all
`concurrency` slots free and one waiting worker exists per port
(src/nexa.py lines 91, 103). -/
def gateInit (numPorts concurrency : Nat) : GateState :=
  ⟨numPorts, 0, 0, concurrency⟩

/-- Transitions of the gate protocol: `async with sem` lets a waiting
worker start only when a slot is free (acquire), and a running worker
that finishes its probe releases its slot on every exit path. -/
inductive GateStep : GateState → GateState → Prop where
  | acquire (s : GateState) : 0 < s.waiting → 0 < s.avail →
      GateStep s ⟨s.waiting - 1, s.running + 1, s.done, s.avail - 1⟩
  | release (s : GateState) : 0 < s.running →
      GateStep s ⟨s.waiting, s.running - 1, s.done + 1, s.avail + 1⟩

/-- Gate states reachable from a given state by the protocol. -/
inductive GateReachable (s₀ : GateState) : GateState → Prop where
  | refl : GateReachable s₀ s₀
  | step {s t : GateState} : GateReachable s₀ s → GateStep s t → GateReachable s₀ t

/-- The prober is total: it always returns `.ok` of the value computed by
`probeResultD`, mirroring the exhaustive except-clauses of the source. -/
theorem probe_port_once_ok (host : String) (port : Nat) (timeout : ℚ)
    (net : ConnectBehavior) :
    probe_port_once host port timeout net = .ok (probeResultD host port timeout net) := by
  cases net with
  | refused => rfl
  | osError => rfl
  | otherExc => rfl
  | accepts delay conn =>
      by_cases h : timeout < delay <;>
        simp [probe_port_once, probeResultD, connectStep, h]

/-- Status and banner of every probe outcome: the status is one of the
three classifications and the banner is non-empty only on OPEN. -/
theorem probeResultD_spec (host : String) (port : Nat) (timeout : ℚ)
    (net : ConnectBehavior) :
    (probeResultD host port timeout net).status ∈ (["OPEN", "CLOSED", "FILTERED"] : List String) ∧
      ((probeResultD host port timeout net).banner ≠ "" →
        (probeResultD host port timeout net).status = "OPEN") := by
  cases net with
  | refused => simp [probeResultD, probe_port_once, connectStep]
  | osError => simp [probeResultD, probe_port_once, connectStep]
  | otherExc => simp [probeResultD, probe_port_once, connectStep]
  | accepts delay conn =>
      by_cases h : timeout < delay <;>
        simp [probeResultD, probe_port_once, connectStep, h, connectedPhase]

/-- Claim C2: Every value the prober returns has status OPEN, CLOSED or
FILTERED, and a non-empty banner forces status OPEN. -/
theorem claim2_status_enum_banner_only_open (host : String) (port : Nat) (timeout : ℚ)
    (net : ConnectBehavior) (r : ProbeResult)
    (h : probe_port_once host port timeout net = .ok r) :
    r.status ∈ (["OPEN", "CLOSED", "FILTERED"] : List String) ∧
      (r.banner ≠ "" → r.status = "OPEN") := by
  have hok := probe_port_once_ok host port timeout net
  rw [h] at hok
  cases hok
  exact probeResultD_spec host port timeout net

/-- Witness for C2 at a concrete refused connection. -/
theorem claim2_status_enum_banner_only_open_witness :
    (⟨"CLOSED", "", false⟩ : ProbeResult).status ∈ (["OPEN", "CLOSED", "FILTERED"] : List String) ∧
      ((⟨"CLOSED", "", false⟩ : ProbeResult).banner ≠ "" →
        (⟨"CLOSED", "", false⟩ : ProbeResult).status = "OPEN") :=
  claim2_status_enum_banner_only_open "h" 22 2 .refused ⟨"CLOSED", "", false⟩ (by decide)

/-- Claim C3: Classification is decided by the connect phase alone: a connect
timeout gives (FILTERED, ''), a refused connection gives (CLOSED, ''),
any other OS/network failure and any other exception give (FILTERED, ''),
and a connect that succeeds within the deadline always yields status
OPEN. -/
theorem claim3_connect_classification (host : String) (port : Nat)
    (timeout delay : ℚ) (conn : ConnBehavior) :
    (timeout < delay →
      probe_port_once host port timeout (.accepts delay conn) = .ok ⟨"FILTERED", "", false⟩) ∧
    probe_port_once host port timeout .refused = .ok ⟨"CLOSED", "", false⟩ ∧
    probe_port_once host port timeout .osError = .ok ⟨"FILTERED", "", false⟩ ∧
    probe_port_once host port timeout .otherExc = .ok ⟨"FILTERED", "", false⟩ ∧
    (delay ≤ timeout →
      ∃ r, probe_port_once host port timeout (.accepts delay conn) = .ok r ∧
        r.status = "OPEN") := by
  refine ⟨?_, rfl, rfl, rfl, ?_⟩
  · intro h
    simp [probe_port_once, connectStep, h]
  · intro h
    refine ⟨connectedPhase port conn, ?_, rfl⟩
    simp [probe_port_once, connectStep, not_lt.mpr h]

/-- Witness for C3: a connect slower than the deadline is FILTERED, a
refused connect is CLOSED, and a connect within the deadline is OPEN. -/
theorem claim3_connect_classification_witness :
    probe_port_once "h" 22 1 (.accepts 2 ⟨false, 0, [], false, false⟩) = .ok ⟨"FILTERED", "", false⟩ ∧
    probe_port_once "h" 22 1 .refused = .ok ⟨"CLOSED", "", false⟩ ∧
    ∃ r, probe_port_once "h" 80 2 (.accepts 1 ⟨false, 0, [], false, false⟩) = .ok r ∧
      r.status = "OPEN" :=
  ⟨(claim3_connect_classification "h" 22 1 2 ⟨false, 0, [], false, false⟩).1 (by norm_num),
   (claim3_connect_classification "h" 22 1 2 ⟨false, 0, [], false, false⟩).2.1,
   (claim3_connect_classification "h" 80 2 1 ⟨false, 0, [], false, false⟩).2.2.2.2 (by norm_num)⟩

/-- Claim C4: The prober never raises to its caller: for every network
behaviour, including failing sends, reads, decodes and closes, it
returns an ok (status, banner) result. -/
theorem claim4_probe_never_raises (host : String) (port : Nat) (timeout : ℚ)
    (net : ConnectBehavior) :
    ∃ r, probe_port_once host port timeout net = .ok r :=
  ⟨probeResultD host port timeout net, probe_port_once_ok host port timeout net⟩

/-- The banner post-processing pipeline as the source composes it
(src/nexa.py line 79): decode permissively, then strip surrounding
whitespace, then replace every CR by a space, then every LF by a
space. -/
def bannerPipeline (data : List Nat) : String :=
  String.mk
    (pyReplaceChar (pyReplaceChar (pyStrip (pyDecodeReplace data)) '\r' ' ') '\n' ' ')

/-- The byte string of the spec's Scenario B. -/
def scenarioB : List Nat :=
  "HTTP/1.1 200 OK\r\nServer: X\r\n\r\n".data.map Char.toNat

/-- Claim C5 counterexample: On the spec's Scenario B bytes the code produces
the banner "HTTP/1.1 200 OK  Server: X" with two spaces before "Server",
not the single-space string the claim asserts: the source strips first
and then replaces each of CR and LF by its own space, so the interior
CRLF pair becomes two spaces and nothing collapses them. -/
theorem claim5_counterexample :
    probe_port_once "h" 80 2 (.accepts 0 ⟨false, 0, scenarioB, false, false⟩) =
      .ok ⟨"OPEN", "HTTP/1.1 200 OK  Server: X", true⟩ ∧
    "HTTP/1.1 200 OK  Server: X" ≠ "HTTP/1.1 200 OK Server: X" := by
  constructor
  · decide
  · decide

/-- Claim C5 as amended: The banner is produced by decoding the received
bytes with replacement, trimming surrounding whitespace first, and then
replacing each embedded CR and each LF character by one space without
collapsing runs; on the Scenario B bytes this yields
"HTTP/1.1 200 OK  Server: X" (two spaces before "Server"). -/
theorem claim5_amended_banner_pipeline (host : String) (port : Nat)
    (timeout delay : ℚ) (conn : ConnBehavior)
    (hconn : delay ≤ timeout)
    (hsend : conn.sendFails = false)
    (hdelay : conn.readDelay ≤ mkRat 9 10)
    (hraise : conn.readRaises = false)
    (hdata : (conn.avail.take 4096).isEmpty = false) :
    probe_port_once host port timeout (.accepts delay conn) =
      .ok ⟨"OPEN", bannerPipeline (conn.avail.take 4096), decide (port ∈ httpPorts)⟩ ∧
    bannerPipeline scenarioB = "HTTP/1.1 200 OK  Server: X" := by
  constructor
  · simp [probe_port_once, connectStep, not_lt.mpr hconn, connectedPhase,
      hsend, not_lt.mpr hdelay, hraise, hdata, bannerPipeline]
  · decide

/-- Witness for the amended C5 on the Scenario B connection. -/
theorem claim5_amended_banner_pipeline_witness :
    probe_port_once "h" 80 2 (.accepts 0 ⟨false, 0, scenarioB, false, false⟩) =
      .ok ⟨"OPEN", bannerPipeline (scenarioB.take 4096), decide ((80 : Nat) ∈ httpPorts)⟩ ∧
    bannerPipeline scenarioB = "HTTP/1.1 200 OK  Server: X" :=
  claim5_amended_banner_pipeline "h" 80 2 0 ⟨false, 0, scenarioB, false, false⟩
    (by norm_num) (by decide) (by decide) (by decide) (by decide)

/-- Claim C6: The banner read is bounded: it consumes at most the first 4096
available bytes, it runs under the fixed 9/10 time-unit deadline
independent of the connect timeout (two different connect timeouts that
both admit the connection give identical results), and expiry of the
read deadline yields an empty banner with status still OPEN. -/
theorem claim6_banner_read_bounds (host : String) (port : Nat)
    (t1 t2 delay : ℚ) (conn : ConnBehavior)
    (h1 : delay ≤ t1) (h2 : delay ≤ t2) :
    probe_port_once host port t1 (.accepts delay conn) =
      probe_port_once host port t2 (.accepts delay conn) ∧
    probe_port_once host port t1
      (.accepts delay ⟨conn.sendFails, conn.readDelay, conn.avail.take 4096,
        conn.readRaises, conn.closeFails⟩) =
      probe_port_once host port t1 (.accepts delay conn) ∧
    (mkRat 9 10 < conn.readDelay →
      probe_port_once host port t1 (.accepts delay conn) =
        .ok ⟨"OPEN", "", decide (port ∈ httpPorts)⟩) := by
  refine ⟨?_, ?_, ?_⟩
  · simp [probe_port_once, connectStep, not_lt.mpr h1, not_lt.mpr h2]
  · simp [probe_port_once, connectStep, not_lt.mpr h1, connectedPhase, List.take_take]
  · intro h
    have hphase : connectedPhase port conn = ⟨"OPEN", "", decide (port ∈ httpPorts)⟩ := by
      unfold connectedPhase
      by_cases hs : port ∈ httpPorts ∧ conn.sendFails
      · simp [hs]
      · simp [hs, h]
    simp [probe_port_once, connectStep, not_lt.mpr h1, hphase]

/-- Witness for C6 with connect timeouts 2 and 3 and a service whose
data only arrives after the 9/10 read deadline. -/
theorem claim6_banner_read_bounds_witness :
    probe_port_once "h" 22 2 (.accepts 1 ⟨false, 1, [65], false, false⟩) =
      probe_port_once "h" 22 3 (.accepts 1 ⟨false, 1, [65], false, false⟩) ∧
    probe_port_once "h" 22 2
      (.accepts 1 ⟨false, 1, List.take 4096 [65], false, false⟩) =
      probe_port_once "h" 22 2 (.accepts 1 ⟨false, 1, [65], false, false⟩) ∧
    probe_port_once "h" 22 2 (.accepts 1 ⟨false, 1, [65], false, false⟩) =
      .ok ⟨"OPEN", "", decide ((22 : Nat) ∈ httpPorts)⟩ :=
  ⟨(claim6_banner_read_bounds "h" 22 2 3 1 ⟨false, 1, [65], false, false⟩
      (by norm_num) (by norm_num)).1,
   (claim6_banner_read_bounds "h" 22 2 3 1 ⟨false, 1, [65], false, false⟩
      (by norm_num) (by norm_num)).2.1,
   (claim6_banner_read_bounds "h" 22 2 3 1 ⟨false, 1, [65], false, false⟩
      (by norm_num) (by norm_num)).2.2 (by decide)⟩

/-- Claim C7: The HTTP request is attempted exactly when the port is one of
80, 443, 8000, 8080; when it is and the send fails, the failure is
swallowed and the result is still status OPEN (with an empty banner). -/
theorem claim7_http_request_ports (host : String) (port : Nat)
    (timeout delay : ℚ) (conn : ConnBehavior)
    (hconn : delay ≤ timeout) :
    (∃ r, probe_port_once host port timeout (.accepts delay conn) = .ok r ∧
      (r.sentRequest = true ↔ (port = 80 ∨ port = 443 ∨ port = 8000 ∨ port = 8080))) ∧
    (port ∈ httpPorts → conn.sendFails = true →
      probe_port_once host port timeout (.accepts delay conn) = .ok ⟨"OPEN", "", true⟩) := by
  constructor
  · refine ⟨connectedPhase port conn, ?_, ?_⟩
    · simp [probe_port_once, connectStep, not_lt.mpr hconn]
    · simp [connectedPhase, httpPorts]
      tauto
  · intro hmem hsend
    simp [probe_port_once, connectStep, not_lt.mpr hconn, connectedPhase, hmem, hsend]

/-- Inserting under key `k` leaves the key list unchanged when `k` is
already present and appends `k` otherwise. -/
theorem dictKeys_dictInsert {α : Type} (d : List (Nat × α)) (k : Nat) (v : α) :
    dictKeys (dictInsert d k v) =
      if k ∈ dictKeys d then dictKeys d else dictKeys d ++ [k] := by
  have hmem : (d.any (fun e => e.1 == k)) = true ↔ k ∈ dictKeys d := by
    simp [dictKeys, List.any_eq_true, List.mem_map]
  by_cases h : k ∈ dictKeys d
  · rw [if_pos h]
    unfold dictInsert
    rw [if_pos (hmem.mpr h)]
    unfold dictKeys
    rw [List.map_map]
    apply List.map_congr_left
    intro e _
    by_cases he : e.1 = k <;> simp [he]
  · rw [if_neg h]
    unfold dictInsert
    rw [if_neg (by rw [hmem]; exact h)]
    simp [dictKeys]

/-- Insertion preserves distinctness of the keys. -/
theorem dictKeys_nodup_dictInsert {α : Type} (d : List (Nat × α)) (k : Nat) (v : α)
    (h : (dictKeys d).Nodup) : (dictKeys (dictInsert d k v)).Nodup := by
  rw [dictKeys_dictInsert]
  by_cases hk : k ∈ dictKeys d
  · rw [if_pos hk]; exact h
  · rw [if_neg hk]
    simp [List.nodup_append, h, hk]

/-- Insertion adds exactly the inserted key to the key set. -/
theorem dictKeys_toFinset_dictInsert {α : Type} (d : List (Nat × α)) (k : Nat) (v : α) :
    (dictKeys (dictInsert d k v)).toFinset = insert k (dictKeys d).toFinset := by
  rw [dictKeys_dictInsert]
  by_cases hk : k ∈ dictKeys d
  · rw [if_pos hk]
    exact (Finset.insert_eq_self.mpr (List.mem_toFinset.mpr hk)).symm
  · rw [if_neg hk]
    ext x
    simp [or_comm]

theorem scanFold_nil (host : String) (timeout : ℚ) (net : Nat → ConnectBehavior)
    (init : List (Nat × (String × String))) :
    scanFold host timeout net [] init = init := rfl

theorem scanFold_cons (host : String) (timeout : ℚ) (net : Nat → ConnectBehavior)
    (p : Nat) (ps : List Nat) (init : List (Nat × (String × String))) :
    scanFold host timeout net (p :: ps) init =
      scanFold host timeout net ps
        (dictInsert init p ((probeResultD host p timeout (net p)).status,
          (probeResultD host p timeout (net p)).banner)) := rfl

/-- The scan fold keeps the keys distinct. -/
theorem scanFold_keys_nodup (host : String) (timeout : ℚ) (net : Nat → ConnectBehavior) :
    ∀ (ports : List Nat) (init : List (Nat × (String × String))),
      (dictKeys init).Nodup → (dictKeys (scanFold host timeout net ports init)).Nodup := by
  intro ports
  induction ports with
  | nil => intro init h; rw [scanFold_nil]; exact h
  | cons p ps ih =>
      intro init h
      rw [scanFold_cons]
      exact ih _ (dictKeys_nodup_dictInsert _ _ _ h)

/-- The scan fold's key set is the initial key set plus the folded
ports. -/
theorem scanFold_keys_toFinset (host : String) (timeout : ℚ) (net : Nat → ConnectBehavior) :
    ∀ (ports : List Nat) (init : List (Nat × (String × String))),
      (dictKeys (scanFold host timeout net ports init)).toFinset =
        (dictKeys init).toFinset ∪ ports.toFinset := by
  intro ports
  induction ports with
  | nil => intro init; simp [scanFold_nil]
  | cons p ps ih =>
      intro init
      rw [scanFold_cons, ih, dictKeys_toFinset_dictInsert]
      ext x
      simp

/-- The scan loop never fails: it returns the pure fold of dictionary
inserts. -/
theorem run_scan_eq_ok (host : String) (concurrency : Nat) (timeout : ℚ)
    (net : Nat → ConnectBehavior) (ports : List Nat) :
    run_scan host ports concurrency timeout net = .ok (scanFold host timeout net ports []) := by
  unfold run_scan
  suffices h : ∀ (ps : List Nat) (init : List (Nat × (String × String))),
      ps.foldlM
        (fun results p =>
          (probe_port_once host p timeout (net p)).map
            (fun r => dictInsert results p (r.status, r.banner))) init =
        .ok (scanFold host timeout net ps init) from h ports []
  intro ps
  induction ps with
  | nil => intro init; rfl
  | cons p rest ih =>
      intro init
      rw [List.foldlM_cons, probe_port_once_ok]
      show (Except.ok (dictInsert init p _) >>= _) = _
      rw [scanFold_cons]
      exact ih _

/-- Claim C1: For distinct ports, the scan returns one entry per requested
port: whatever statuses the probes produce and in whatever order the
workers complete (any permutation of the request), the result's key list
is a permutation of the requested ports and has the same length. -/
theorem claim1_one_entry_per_port (host : String) (concurrency : Nat) (timeout : ℚ)
    (net : Nat → ConnectBehavior) (ports order : List Nat)
    (hnd : ports.Nodup) (hperm : order.Perm ports) :
    ∃ d, run_scan host order concurrency timeout net = .ok d ∧
      (dictKeys d).Perm ports ∧ d.length = ports.length := by
  refine ⟨scanFold host timeout net order [],
    run_scan_eq_ok host concurrency timeout net order, ?_, ?_⟩
  · have hnodup : (dictKeys (scanFold host timeout net order [])).Nodup :=
      scanFold_keys_nodup host timeout net order [] (by simp [dictKeys])
    have hfin : (dictKeys (scanFold host timeout net order [])).toFinset = ports.toFinset := by
      rw [scanFold_keys_toFinset host timeout net order []]
      have h0 : (dictKeys ([] : List (Nat × (String × String)))).toFinset = ∅ := rfl
      rw [h0, Finset.empty_union]
      exact List.toFinset_eq_of_perm _ _ hperm
    exact List.perm_of_nodup_nodup_toFinset_eq hnodup hnd hfin
  · have hnodup : (dictKeys (scanFold host timeout net order [])).Nodup :=
      scanFold_keys_nodup host timeout net order [] (by simp [dictKeys])
    have hfin : (dictKeys (scanFold host timeout net order [])).toFinset = ports.toFinset := by
      rw [scanFold_keys_toFinset host timeout net order []]
      have h0 : (dictKeys ([] : List (Nat × (String × String)))).toFinset = ∅ := rfl
      rw [h0, Finset.empty_union]
      exact List.toFinset_eq_of_perm _ _ hperm
    have := (List.perm_of_nodup_nodup_toFinset_eq hnodup hnd hfin).length_eq
    simpa [dictKeys] using this

/-- Witness for C1: two distinct ports completing in reversed order. -/
theorem claim1_one_entry_per_port_witness :
    ∃ d, run_scan "h" [80, 22] 1 2 (fun _ => .refused) = .ok d ∧
      (dictKeys d).Perm [22, 80] ∧ d.length = ([22, 80] : List Nat).length :=
  claim1_one_entry_per_port "h" 1 2 (fun _ => .refused) [22, 80] [80, 22]
    (by decide) (by decide)

/-- Claim C10: Even when the submitted list contains duplicate ports, the
scan still returns a dictionary with exactly one entry per distinct
submitted port (the later write for a repeated port overwrites the
earlier one), with distinct keys covering exactly the submitted port
set. -/
theorem claim10_duplicate_ports_overwrite (host : String) (concurrency : Nat)
    (timeout : ℚ) (net : Nat → ConnectBehavior) (ports order : List Nat)
    (hperm : order.Perm ports) :
    ∃ d, run_scan host order concurrency timeout net = .ok d ∧
      (dictKeys d).Nodup ∧ (dictKeys d).toFinset = ports.toFinset ∧
      d.length = ports.dedup.length := by
  have hnodup : (dictKeys (scanFold host timeout net order [])).Nodup :=
    scanFold_keys_nodup host timeout net order [] (by simp [dictKeys])
  have hfin : (dictKeys (scanFold host timeout net order [])).toFinset = ports.toFinset := by
    rw [scanFold_keys_toFinset host timeout net order []]
    have h0 : (dictKeys ([] : List (Nat × (String × String)))).toFinset = ∅ := rfl
    rw [h0, Finset.empty_union]
    exact List.toFinset_eq_of_perm _ _ hperm
  refine ⟨scanFold host timeout net order [],
    run_scan_eq_ok host concurrency timeout net order, hnodup, hfin, ?_⟩
  have h1 : (dictKeys (scanFold host timeout net order [])).toFinset.card =
      (dictKeys (scanFold host timeout net order [])).dedup.length :=
    List.card_toFinset _
  rw [List.dedup_eq_self.mpr hnodup, hfin, List.card_toFinset] at h1
  have h2 : (dictKeys (scanFold host timeout net order [])).length =
      (scanFold host timeout net order []).length := by
    simp [dictKeys]
  omega

/-- Witness for C10: port 80 submitted twice alongside port 22. -/
theorem claim10_duplicate_ports_overwrite_witness :
    ∃ d, run_scan "h" [80, 80, 22] 1 2 (fun _ => .refused) = .ok d ∧
      (dictKeys d).Nodup ∧ (dictKeys d).toFinset = ([80, 80, 22] : List Nat).toFinset ∧
      d.length = ([80, 80, 22] : List Nat).dedup.length :=
  claim10_duplicate_ports_overwrite "h" 1 2 (fun _ => .refused) [80, 80, 22] [80, 80, 22]
    (by decide)

/-- Lowercasing gives the empty string only for the empty string. -/
theorem pyLower_eq_empty_iff (s : String) : pyLower s = "" ↔ s = "" := by
  constructor
  · intro h
    have hd : (s.data.map Char.toLower) = [] := by
      have := congrArg String.data h
      simpa [pyLower] using this
    have hnil : s.data = [] := by simpa using hd
    cases s
    simp_all
  · intro h
    subst h
    rfl

/-- The row filter of the renderer, phrased as the spec states it. -/
theorem includeItem_iff (i : MergedItem) :
    includeItem i = true ↔
      (i.status = "OPEN" ∨
        (i.status = "FILTERED" ∧ i.service ≠ "" ∧ pyLower i.service ≠ "(unknown)")) := by
  unfold includeItem
  by_cases h1 : i.status = "OPEN"
  · simp [h1]
  · by_cases h2 : i.status = "FILTERED"
    · by_cases h3 : i.service = ""
      · simp [h1, h2, h3]
      · by_cases h4 : pyLower i.service = "(unknown)"
        · simp [h1, h2, h3, h4]
        · have h5 : pyLower i.service ≠ "" := fun h => h3 ((pyLower_eq_empty_iff _).mp h)
          simp [h1, h2, h3, h4, h5]
    · simp [h1, h2]

/-- Claim C8: A merged entry's row appears in the rendered table exactly when
its status is OPEN, or its status is FILTERED and its service description
is non-empty and is not the "(unknown)" placeholder (compared
case-insensitively, as the source lowercases before comparing). -/
theorem claim8_row_inclusion (merged : List MergedItem) (i : MergedItem)
    (hmem : i ∈ merged) :
    (i.port, i.status, i.service, i.version) ∈ print_table_rows merged ↔
      (i.status = "OPEN" ∨
        (i.status = "FILTERED" ∧ i.service ≠ "" ∧ pyLower i.service ≠ "(unknown)")) := by
  unfold print_table_rows
  rw [List.mem_map]
  constructor
  · rintro ⟨j, hj, heq⟩
    rw [List.mem_filter] at hj
    obtain ⟨hjm, hji⟩ := hj
    obtain ⟨hp, hs, hsvc, hv⟩ : j.port = i.port ∧ j.status = i.status ∧
        j.service = i.service ∧ j.version = i.version := by
      simpa [Prod.ext_iff] using heq
    have hcond := (includeItem_iff j).mp hji
    rw [hs, hsvc] at hcond
    exact hcond
  · intro h
    refine ⟨i, ?_, rfl⟩
    rw [List.mem_filter]
    exact ⟨hmem, (includeItem_iff i).mpr h⟩

/-- Witness for C8 on a one-entry report with an OPEN row. -/
theorem claim8_row_inclusion_witness :
    ((80, "OPEN", "", "b") ∈ print_table_rows [⟨80, "OPEN", "", "b"⟩]) ↔
      (("OPEN" : String) = "OPEN" ∨
        (("OPEN" : String) = "FILTERED" ∧ ("" : String) ≠ "" ∧ pyLower "" ≠ "(unknown)")) :=
  claim8_row_inclusion [⟨80, "OPEN", "", "b"⟩] ⟨80, "OPEN", "", "b"⟩ (by simp)

/-- Every reachable gate state keeps running tasks plus free slots equal
to the configured concurrency: acquires and releases transfer slots but
never create them. -/
theorem gateReachable_invariant (numPorts concurrency : Nat) (s : GateState)
    (h : GateReachable (gateInit numPorts concurrency) s) :
    s.running + s.avail = concurrency := by
  induction h with
  | refl => simp [gateInit]
  | step hr hstep ih =>
      cases hstep with
      | acquire hw ha => simp_all; omega
      | release hrun => simp_all; omega

/-- Claim C9: At no point do more than `concurrency` probe tasks hold the
gate simultaneously: in every state reachable from the start of a scan
with a positive concurrency limit, the number of running probes is at
most that limit. -/
theorem claim9_concurrency_ceiling (numPorts concurrency : Nat)
    (hpos : 0 < concurrency) (s : GateState)
    (h : GateReachable (gateInit numPorts concurrency) s) :
    s.running ≤ concurrency := by
  have := gateReachable_invariant numPorts concurrency s h
  omega

/-- Witness for C9: three tasks, ceiling two, after one acquire. -/
theorem claim9_concurrency_ceiling_witness :
    (⟨2, 1, 0, 1⟩ : GateState).running ≤ 2 :=
  claim9_concurrency_ceiling 3 2 (by decide) ⟨2, 1, 0, 1⟩
    (GateReachable.step GateReachable.refl
      (GateStep.acquire (gateInit 3 2) (by decide) (by decide)))

/-- Witness for C7 at port 80 with a failing send. -/
theorem claim7_http_request_ports_witness :
    (∃ r, probe_port_once "h" 80 2 (.accepts 1 ⟨true, 0, [65], false, false⟩) = .ok r ∧
      (r.sentRequest = true ↔ ((80 : Nat) = 80 ∨ (80 : Nat) = 443 ∨ (80 : Nat) = 8000 ∨ (80 : Nat) = 8080))) ∧
    probe_port_once "h" 80 2 (.accepts 1 ⟨true, 0, [65], false, false⟩) = .ok ⟨"OPEN", "", true⟩ :=
  ⟨(claim7_http_request_ports "h" 80 2 1 ⟨true, 0, [65], false, false⟩ (by norm_num)).1,
   (claim7_http_request_ports "h" 80 2 1 ⟨true, 0, [65], false, false⟩ (by norm_num)).2
     (by decide) rfl⟩
